import Mathlib

/-!
Verification of the RiftScout analysis core: a shallow embedding of the
player-tendency, team-tendency, composition and insight-synthesis analyzers,
together with theorems settling the specified properties.

Modelling conventions:
- a pandas DataFrame row is an `Obs`; presence of the optional `role` /
  `champion` columns is tracked by flags on `Frame` (the four required
  numeric columns are always present on every row);
- Python floats are embedded as exact rationals `ℚ`;
- pandas `Series.mean` is rational `sum / length`; on an empty series the
  rational convention gives 0 where Python would give NaN, so theorems whose
  branch conditions read a whole-frame mean carry a nonemptiness hypothesis;
- f-string metrics are kept as the literal template text plus the list of
  exact quantities interpolated into it.
-/

namespace RiftScout

/-- One row of the match DataFrame: one player's participation in one
match-team. -/
structure Obs where
  match_id : Nat
  team_id : Nat
  role : String
  champion : String
  win : Bool
  game_duration : Nat
  first_dragon : Bool
  first_tower : Bool
deriving Repr, DecidableEq

/-- The input table. `hasRole` / `hasChampion` model presence of the optional
DataFrame columns tested by the analyzers' column checks. -/
structure Frame where
  rows : List Obs
  hasRole : Bool
  hasChampion : Bool
deriving Repr, DecidableEq

/-- Numeric value of a boolean column entry (pandas coerces True/False
to 1/0). -/
def boolVal (b : Bool) : ℚ := if b then 1 else 0

/-- pandas `Series.mean` over exact rationals: sum divided by length. -/
def qmean (l : List ℚ) : ℚ := l.sum / l.length

/-- Distinct values of a column in order of first occurrence (the key order of
a hashtable built by insertion, as pandas produces before sorting counts). -/
def firstSeen {α : Type} [DecidableEq α] : List α → List α
  | [] => []
  | x :: xs => x :: firstSeen (xs.filter (fun y => y ≠ x))
termination_by l => l.length
decreasing_by
  simp only [List.length_cons]
  exact Nat.lt_succ_of_le (List.length_filter_le _ _)

/-- One entry of a pandas `value_counts` result: a key, its occurrence count,
and the position of its first occurrence among the distinct keys. -/
structure VC (α : Type) where
  key : α
  cnt : Nat
  idx : Nat
deriving Repr, DecidableEq

/-- Ordering of `value_counts` entries: strictly larger counts first, ties kept
in first-occurrence order (pandas sorts the first-seen keys stably by
descending count; sorting by the explicit (count desc, first-seen asc) key
yields the identical list). -/
def vcRel {α : Type} (a b : VC α) : Prop :=
  b.cnt < a.cnt ∨ (a.cnt = b.cnt ∧ a.idx ≤ b.idx)

instance {α : Type} : DecidableRel (@vcRel α) := fun a b => by
  unfold vcRel; infer_instance

instance {α : Type} : IsTotal (VC α) vcRel := by
  constructor; intro a b; unfold vcRel; omega

instance {α : Type} : IsTrans (VC α) vcRel := by
  constructor; intro a b c hab hbc; unfold vcRel at hab hbc ⊢; omega

/-- Number of occurrences of a value in a column. -/
def countOcc {α : Type} [DecidableEq α] (l : List α) (a : α) : Nat :=
  (l.filter (fun x => x = a)).length

/-- Attach occurrence counts (w.r.t. the whole column `l`) and first-seen
positions, starting at position `i`, to a run of distinct keys. -/
def tallyFrom {α : Type} [DecidableEq α] (l : List α) : Nat → List α → List (VC α)
  | _, [] => []
  | i, k :: ks => ⟨k, countOcc l k, i⟩ :: tallyFrom l (i + 1) ks

/-- pandas `Series.value_counts`: the distinct values in first-seen order,
stably sorted by descending occurrence count. -/
def value_counts {α : Type} [DecidableEq α] (l : List α) : List (VC α) :=
  List.insertionSort vcRel (tallyFrom l 0 (firstSeen l))

/-- Result record of `analyze_team_tendencies`. Fields in order:
first_dragon_rate, first_tower_rate, early_game_win_rate, late_game_win_rate,
win_tendency. -/
structure TeamTendencies where
  first_dragon_rate : ℚ
  first_tower_rate : ℚ
  early_game_win_rate : ℚ
  late_game_win_rate : ℚ
  win_tendency : String
deriving Repr, DecidableEq

/-- Embedding of `analyze_team_tendencies` (src/analysis/team_tendencies.py):
means of the two first-objective columns, win rates of the sub-frames with
game_duration < 1800 and ≥ 1800 (0.0 for an empty sub-frame), and the
win-phase label. -/
def analyze_team_tendencies (df : Frame) : TeamTendencies :=
  let first_dragon_rate := qmean (df.rows.map (fun r => boolVal r.first_dragon))
  let first_tower_rate := qmean (df.rows.map (fun r => boolVal r.first_tower))
  let early_game := df.rows.filter (fun r => r.game_duration < 1800)
  let late_game := df.rows.filter (fun r => 1800 ≤ r.game_duration)
  let early_win_rate : ℚ :=
    if early_game.isEmpty then 0 else qmean (early_game.map (fun r => boolVal r.win))
  let late_win_rate : ℚ :=
    if late_game.isEmpty then 0 else qmean (late_game.map (fun r => boolVal r.win))
  ⟨first_dragon_rate, first_tower_rate, early_win_rate, late_win_rate,
    if early_win_rate > late_win_rate then "early" else "late"⟩

/-- One generated insight. Fields in order: recommendation, metric (the
f-string template, a \x7b\x7d marking each interpolated quantity), metricArgs
(the exact quantities interpolated, in order), priority. -/
structure Insight where
  recommendation : String
  metric : String
  metricArgs : List ℚ
  priority : String
deriving Repr, DecidableEq

/-- dragon_rate as computed inside `generate_how_to_win_insights`. -/
def htw_dragon_rate (df : Frame) : ℚ :=
  qmean (df.rows.map (fun r => boolVal r.first_dragon))

/-- The sub-frame selected by the early_game_mask of
`generate_how_to_win_insights`. -/
def htw_early_games (df : Frame) : List Obs :=
  df.rows.filter (fun r => r.game_duration < 1800)

/-- The sub-frame selected by the late_game_mask of
`generate_how_to_win_insights`. -/
def htw_late_games (df : Frame) : List Obs :=
  df.rows.filter (fun r => 1800 ≤ r.game_duration)

/-- early_win_rate as computed inside `generate_how_to_win_insights`. -/
def htw_early_win_rate (df : Frame) : ℚ :=
  if (htw_early_games df).isEmpty then 0
  else qmean ((htw_early_games df).map (fun r => boolVal r.win))

/-- late_win_rate as computed inside `generate_how_to_win_insights`. -/
def htw_late_win_rate (df : Frame) : ℚ :=
  if (htw_late_games df).isEmpty then 0
  else qmean ((htw_late_games df).map (fun r => boolVal r.win))

/-- Embedding of `generate_how_to_win_insights` (src/insights/how_to_win.py):
one HIGH insight (dragon pressure, late-game falloff, or general pressure),
one MEDIUM insight (tower pressure, scaling threat, or vision), and the fixed
SITUATIONAL insight, in that order. -/
def generate_how_to_win_insights (df : Frame) : List Insight :=
  let dragon_rate := htw_dragon_rate df
  let early_win_rate := htw_early_win_rate df
  let late_win_rate := htw_late_win_rate df
  let high : Insight :=
    if dragon_rate < 0.4 then
      ⟨"FORCE DRAGON FIGHTS. DENY SOUL AT ALL COSTS.",
        "Opponent dragon control is weak (\x7b\x7d capture rate).",
        [dragon_rate], "HIGH"⟩
    else if early_win_rate > late_win_rate + 0.15 then
      ⟨"STALL FOR LATE. PUNISH THEIR MID-GAME DESPERATION.",
        "Massive late-game drop detected (\x7b\x7d Early vs \x7b\x7d Late WR).",
        [early_win_rate, late_win_rate], "HIGH"⟩
    else
      ⟨"PRESS THE ADVANTAGE. DON\x27T LET THEM BREATHE.",
        "Maintain pressure (\x7b\x7d overall win rate).",
        [qmean (df.rows.map (fun r => boolVal r.win))], "HIGH"⟩
  let tower_rate := qmean (df.rows.map (fun r => boolVal r.first_tower))
  let medium : Insight :=
    if tower_rate < 0.5 then
      ⟨"CRASH WAVES. PUNISH WEAK ROTATIONS FOR PLATES.",
        "Subpar first tower control (\x7b\x7d rate).",
        [tower_rate], "MEDIUM"⟩
    else if late_win_rate > early_win_rate + 0.1 then
      ⟨"INVADE EARLY. BREAK THEIR SCALING BEFORE IT STARTS.",
        "Scaling threat detected (\x7b\x7d Late WR vs \x7b\x7d Early).",
        [late_win_rate, early_win_rate], "MEDIUM"⟩
    else
      ⟨"CONTROL VISION. PUNISH FACE-CHECKS IN RIVER.",
        "Standard objective pacing detected.", [], "MEDIUM"⟩
  [high, medium,
    ⟨"BAIT BARON. FORCE THEM INTO A BAD FACE-CHECK.",
      "Situational tactical opening.", [], "SITUATIONAL"⟩]

/-- One value of the mapping returned by `analyze_player_tendencies`.
Fields in order: most_played_champion, win_rate, count, priority, action. -/
structure RoleTendency where
  most_played_champion : String
  win_rate : ℚ
  count : Nat
  priority : String
  action : String
deriving Repr, DecidableEq

/-- Body of the per-role loop of `analyze_player_tendencies`
(src/analysis/player_tendencies.py): champion value_counts, the < 2 games
noise floor, then idxmax / max of the filtered counts — on the
descending-sorted value_counts series both live in its first entry — and the
priority / action cascades. `none` is the loop's continue. -/
def build_role_tendency (role_df : List Obs) : Option RoleTendency :=
  match (value_counts (role_df.map (fun r => r.champion))).filter (fun e => 2 ≤ e.cnt) with
  | [] => none
  | top :: _ =>
    let most_played_champion := top.key
    let games_played := top.cnt
    let champion_df := role_df.filter (fun r => r.champion = most_played_champion)
    let win_rate := qmean (champion_df.map (fun r => boolVal r.win))
    let priority :=
      if 3 ≤ games_played ∧ (0.7 ≤ win_rate ∨ win_rate ≤ 0.3) then "HIGH"
      else if 2 ≤ games_played ∧ (0.6 ≤ win_rate ∨ win_rate ≤ 0.4) then "MEDIUM"
      else "LOW"
    let action :=
      if 0.6 ≤ win_rate then "DENY COMFORT PICK"
      else if win_rate ≤ 0.4 then "FORCE LOSING MATCHUP"
      else "IGNORE AND PLAY CROSS-MAP"
    some ⟨most_played_champion, win_rate, games_played, priority, action⟩

/-- The frame after the optional roles filter of `analyze_player_tendencies`:
Python's truthiness test on the roles argument means both `none` and
`some []` leave the frame unfiltered. -/
def pt_data (df : Frame) (roles : Option (List String)) : List Obs :=
  match roles with
  | some rs => if rs.isEmpty then df.rows else df.rows.filter (fun r => rs.contains r.role)
  | none => df.rows

/-- The rows of one role group after the optional roles filter. -/
def pt_role_group (df : Frame) (roles : Option (List String)) (role : String) : List Obs :=
  (pt_data df roles).filter (fun r => r.role = role)

/-- Embedding of `analyze_player_tendencies` (src/analysis/player_tendencies.py).
The result dict is an association list keyed by role, in pandas groupby key
order (sorted); missing role / champion columns short-circuit to the empty
mapping. -/
def analyze_player_tendencies (df : Frame) (roles : Option (List String)) :
    List (String × RoleTendency) :=
  if !df.hasRole || !df.hasChampion then []
  else
    let roleKeys :=
      List.insertionSort (fun a b : String => a ≤ b)
        (firstSeen ((pt_data df roles).map (fun r => r.role)))
    roleKeys.filterMap (fun role =>
      (build_role_tendency (pt_role_group df roles role)).map (fun t => (role, t)))

/-- The champion_tags dict of src/analysis/compositions.py, in declaration
order. -/
def champion_tags_table : List (String × String) :=
  [("Lee Sin", "skirmish"), ("Renekton", "skirmish"), ("LeBlanc", "skirmish"),
   ("Xin Zhao", "skirmish"), ("Elise", "skirmish"), ("Lucian", "skirmish"),
   ("Nidalee", "skirmish"), ("Kindred", "skirmish"), ("Sylas", "skirmish"),
   ("Jayce", "skirmish"), ("Wukong", "skirmish"), ("Taliyah", "skirmish"),
   ("Lulu", "protect"), ("Janna", "protect"), ("Braum", "protect"),
   ("Kog\x27Maw", "protect"), ("Vayne", "protect"), ("Tahm Kench", "protect"),
   ("Milio", "protect"), ("Yuumi", "protect"), ("Zilean", "protect"),
   ("Rakan", "protect"), ("Karma", "protect"),
   ("Malphite", "engage"), ("Amumu", "engage"), ("Leona", "engage"),
   ("Nautilus", "engage"), ("Jarvan IV", "engage"), ("Ornn", "engage"),
   ("Galio", "engage"), ("Vi", "engage"), ("Sejuani", "engage"),
   ("Sion", "engage"), ("K\x27Sante", "engage"), ("Alistar", "engage"),
   ("Maokai", "engage"),
   ("Kayle", "scaling"), ("Kassadin", "scaling"), ("Jinx", "scaling"),
   ("Ryze", "scaling"), ("Sivir", "scaling"), ("Viktor", "scaling"),
   ("Smolder", "scaling"), ("Azir", "scaling"), ("Caitlyn", "scaling"),
   ("Senna", "scaling"), ("Vladimir", "scaling")]

/-- champion_tags.get: the archetype tag of a champion, `none` when
untagged. -/
def champion_tags (champ : String) : Option String :=
  (champion_tags_table.find? (fun p => p.1 = champ)).map (fun p => p.2)

/-- Per-archetype tally, mirroring the counts dict
\x7b skirmish : 0, protect : 0, engage : 0, scaling : 0 \x7d whose insertion
order fixes the tie-break of the Python max below. -/
structure TagCounts where
  skirmish : Nat
  protect : Nat
  engage : Nat
  scaling : Nat
deriving Repr, DecidableEq

/-- One iteration of the tag-counting loop: counts[tag] += 1 when the champion
is tagged, no change when untagged. The final branch is unreachable — the
table's values are exactly the four archetypes. -/
def bumpTag (c : TagCounts) (tag : Option String) : TagCounts :=
  match tag with
  | none => c
  | some t =>
    if t = "skirmish" then ⟨c.skirmish + 1, c.protect, c.engage, c.scaling⟩
    else if t = "protect" then ⟨c.skirmish, c.protect + 1, c.engage, c.scaling⟩
    else if t = "engage" then ⟨c.skirmish, c.protect, c.engage + 1, c.scaling⟩
    else if t = "scaling" then ⟨c.skirmish, c.protect, c.engage, c.scaling + 1⟩
    else c

/-- The tag-counting loop of `classify_team_composition`. -/
def tagCounts (comp : List String) : TagCounts :=
  comp.foldl (fun c ch => bumpTag c (champion_tags ch)) ⟨0, 0, 0, 0⟩

/-- Python max(counts, key=counts.get) over the dict with key order
skirmish, protect, engage, scaling: the first key attaining the maximal
count (a later key replaces the current best only when strictly greater). -/
def max_key (c : TagCounts) : String :=
  let v1 := c.skirmish
  let k2 := if c.protect > v1 then "protect" else "skirmish"
  let v2 := if c.protect > v1 then c.protect else v1
  let k3 := if c.engage > v2 then "engage" else k2
  let v3 := if c.engage > v2 then c.engage else v2
  if c.scaling > v3 then "scaling" else k3

/-- counts[k] lookup on the tally. -/
def tcGet (c : TagCounts) (k : String) : Nat :=
  if k = "skirmish" then c.skirmish
  else if k = "protect" then c.protect
  else if k = "engage" then c.engage
  else if k = "scaling" then c.scaling
  else 0

/-- The fixed (category, win_condition, break_point) triple of one
archetype. -/
structure ArchetypeInfo where
  category : String
  win_condition : String
  break_point : String
deriving Repr, DecidableEq

/-- The archetypes dict of `classify_team_composition`; every style outside
the four archetype names receives the standard triple (the function is only
ever applied to the four archetype names or to the standard fallback). -/
def archetype_info (style : String) : ArchetypeInfo :=
  if style = "skirmish" then
    ⟨"EARLY SKIRMISH", "CRUSH LANES EARLY. INVADE AND SNOWBALL TEMPO.",
      "FALLS OFF IF GAME STALLS PAST 25 MINS."⟩
  else if style = "protect" then
    ⟨"PROTECT THE CARRY", "PEEL FOR ADC. WIN FRONT-TO-BACK TEAMFIGHTS.",
      "VULNERABLE IF CARRY IS DIVED OR PICKED EARLY."⟩
  else if style = "engage" then
    ⟨"HEAVY ENGAGE", "FORCE 5V5. CHAIN CC ON PRIORITY TARGETS.",
      "USELESS IF THEY MISS INITIAL ENGAGE OR GET POKED."⟩
  else if style = "scaling" then
    ⟨"SCALING", "STALL FOR ITEMS. OUT-STAT IN LATE GAME CLUTCHES.",
      "EXTREMELY WEAK TO EARLY DIVES AND SOUL PRESSURE."⟩
  else
    ⟨"STANDARD", "ADAPT TO FLOW. PLAY FOR STANDARD OBJECTIVES.",
      "LACKS SPECIALIZED STRENGTH AGAINST FOCUSED COMPS."⟩

/-- The primary_style selected by `classify_team_composition`: the Python max
over the counts dict, demoted to standard when its count is below 2. -/
def primary_style_of (comp : List String) : String :=
  let counts := tagCounts comp
  let mk := max_key counts
  if tcGet counts mk < 2 then "standard" else mk

/-- Embedding of `classify_team_composition`
(src/analysis/compositions.py). -/
def classify_team_composition (comp : List String) : ArchetypeInfo :=
  archetype_info (primary_style_of comp)

/-- Lexicographic order on (match_id, team_id) pairs — pandas groupby sorts
its group keys. -/
def pairLe (a b : Nat × Nat) : Prop := a.1 < b.1 ∨ (a.1 = b.1 ∧ a.2 ≤ b.2)

instance : DecidableRel pairLe := fun a b => by
  unfold pairLe; infer_instance

/-- The (match_id, team_id) group keys of the composition groupby, in pandas
key order. -/
def group_keys (df : Frame) : List (Nat × Nat) :=
  List.insertionSort pairLe (firstSeen (df.rows.map (fun r => (r.match_id, r.team_id))))

/-- The composition column: per (match_id, team_id) group, the
lexicographically sorted tuple of its champions. -/
def compsOf (df : Frame) : List (List String) :=
  (group_keys df).map (fun k =>
    List.insertionSort (fun a b : String => a ≤ b)
      ((df.rows.filter (fun r => r.match_id = k.1 ∧ r.team_id = k.2)).map
        (fun r => r.champion)))

/-- comp_counts: value_counts of the composition column. -/
def ranked_compositions (df : Frame) : List (VC (List String)) :=
  value_counts (compsOf df)

/-- One output row of `analyze_compositions`. Fields in order: composition,
count, category, win_condition, break_point. -/
structure CompositionEntry where
  composition : List String
  count : Nat
  category : String
  win_condition : String
  break_point : String
deriving Repr, DecidableEq

/-- Embedding of `analyze_compositions` (src/analysis/compositions.py): the
common_compositions list — empty when the champion column is absent, else the
top 5 ranked compositions with their classification triples. -/
def analyze_compositions (df : Frame) : List CompositionEntry :=
  if df.hasChampion then
    ((ranked_compositions df).take 5).map (fun e =>
      let cls := classify_team_composition e.key
      ⟨e.key, e.cnt, cls.category, cls.win_condition, cls.break_point⟩)
  else []

/-- A concrete ten-row frame realising the spec's Team Tendency example:
first_dragon mean 0.3, first_tower mean 0.6, every game_duration 1700, win
mean 0.5. -/
def exTeamRows : List Obs :=
  [⟨1, 100, "TOP", "A", true, 1700, true, true⟩,
   ⟨2, 100, "TOP", "A", true, 1700, true, true⟩,
   ⟨3, 100, "TOP", "A", true, 1700, true, true⟩,
   ⟨4, 100, "TOP", "A", true, 1700, false, true⟩,
   ⟨5, 100, "TOP", "A", true, 1700, false, true⟩,
   ⟨6, 100, "TOP", "A", false, 1700, false, true⟩,
   ⟨7, 100, "TOP", "A", false, 1700, false, false⟩,
   ⟨8, 100, "TOP", "A", false, 1700, false, false⟩,
   ⟨9, 100, "TOP", "A", false, 1700, false, false⟩,
   ⟨10, 100, "TOP", "A", false, 1700, false, false⟩]

/-- The frame of `exTeamRows` with both optional columns present. -/
def exTeamFrame : Frame := ⟨exTeamRows, true, true⟩

/-- A concrete frame realising the spec's Player Tendency example: role TOP
with champion A played 3 times (3 wins) and champion B played once. -/
def exPlayerRows : List Obs :=
  [⟨1, 100, "TOP", "A", true, 1700, true, true⟩,
   ⟨2, 100, "TOP", "A", true, 1700, true, true⟩,
   ⟨3, 100, "TOP", "A", true, 1700, true, true⟩,
   ⟨4, 100, "TOP", "B", false, 1700, false, false⟩]

/-- The frame of `exPlayerRows` with both optional columns present. -/
def exPlayerFrame : Frame := ⟨exPlayerRows, true, true⟩

/-- The tendency the analyzer reports for TOP on `exPlayerFrame`. -/
def exTendA : RoleTendency := ⟨"A", 1, 3, "HIGH", "DENY COMFORT PICK"⟩

/-- A frame whose role column is absent while its champion column is
present. -/
def exNoRoleFrame : Frame := ⟨exPlayerRows, false, true⟩

/-- A frame missing both optional columns. -/
def exNoOptFrame : Frame := ⟨exPlayerRows, false, false⟩

/-- The first-dragon mean of a collection, written as the fraction of rows
with the flag set. -/
def dragon_mean (df : Frame) : ℚ :=
  (df.rows.countP (fun r => r.first_dragon) : ℚ) / df.rows.length

/-- The first-tower mean of a collection. -/
def tower_mean (df : Frame) : ℚ :=
  (df.rows.countP (fun r => r.first_tower) : ℚ) / df.rows.length

/-- The mean of win over all rows of a collection. -/
def overall_win_mean (df : Frame) : ℚ :=
  (df.rows.countP (fun r => r.win) : ℚ) / df.rows.length

/-- The maximal per-archetype count of a tally. -/
def max4 (c : TagCounts) : Nat :=
  max c.skirmish (max c.protect (max c.engage c.scaling))

/-- Modelled from the claim wording: the archetype with the highest count,
ties among equal maximal counts broken by the fixed priority order
skirmish > protect > engage > scaling. -/
def arch_first_max (c : TagCounts) : String :=
  if c.skirmish = max4 c then "skirmish"
  else if c.protect = max4 c then "protect"
  else if c.engage = max4 c then "engage"
  else "scaling"

instance : IsTotal String (fun a b : String => a ≤ b) := ⟨fun a b => le_total a b⟩

instance : IsTrans String (fun a b : String => a ≤ b) :=
  ⟨fun _ _ _ hab hbc => le_trans hab hbc⟩

/-- The spec section-8 composition example: one match, one team, champions
Garen and Darius. -/
def exCompRows : List Obs :=
  [⟨1, 100, "TOP", "Garen", true, 1700, true, true⟩,
   ⟨1, 100, "MID", "Darius", true, 1700, true, true⟩]

/-- The frame of `exCompRows` with both optional columns present. -/
def exCompFrame : Frame := ⟨exCompRows, true, true⟩

/-- The single entry the Composition Analyzer reports on `exCompFrame`:
lexicographically sorted composition, count 1, STANDARD (neither champion is
tagged). -/
def exCompEntry : CompositionEntry :=
  ⟨["Darius", "Garen"], 1, "STANDARD", "ADAPT TO FLOW. PLAY FOR STANDARD OBJECTIVES.",
   "LACKS SPECIALIZED STRENGTH AGAINST FOCUSED COMPS."⟩

theorem sum_map_boolVal (l : List Obs) (f : Obs → Bool) :
    (l.map (fun r => boolVal (f r))).sum = (l.countP f : ℚ) := by
  induction l with
  | nil => simp
  | cons a t ih =>
    simp only [List.map_cons, List.sum_cons, List.countP_cons, ih]
    cases h : f a <;> simp [h, boolVal] <;> ring

theorem rate_eq (l : List Obs) (f : Obs → Bool) :
    qmean (l.map (fun r => boolVal (f r))) = (l.countP f : ℚ) / l.length := by
  unfold qmean
  rw [sum_map_boolVal]
  simp

theorem win_rate_eq (l : List Obs) :
    (if l.isEmpty then (0 : ℚ) else qmean (l.map (fun r => boolVal r.win)))
      = (l.countP (fun r => r.win) : ℚ) / l.length := by
  cases h : l.isEmpty
  · simp only [h, if_neg Bool.false_ne_true, Bool.false_eq_true, if_false]
    exact rate_eq l (fun r => r.win)
  · rw [List.isEmpty_iff] at h
    subst h
    simp

/-- C1: for every observation collection, `generate_how_to_win_insights`
returns exactly 3 insights whose priority labels are, in order, HIGH, MEDIUM,
SITUATIONAL. -/
theorem claim_C1 : ∀ df : Frame,
    (generate_how_to_win_insights df).length = 3 ∧
    (generate_how_to_win_insights df).map (fun i => i.priority)
      = ["HIGH", "MEDIUM", "SITUATIONAL"] := by
  intro df
  unfold generate_how_to_win_insights
  dsimp only
  split_ifs <;> exact ⟨rfl, rfl⟩

theorem att_early_field (df : Frame) :
    (analyze_team_tendencies df).early_game_win_rate =
      if (df.rows.filter (fun r => r.game_duration < 1800)).isEmpty then (0 : ℚ)
      else qmean ((df.rows.filter (fun r => r.game_duration < 1800)).map
        (fun r => boolVal r.win)) := rfl

theorem att_late_field (df : Frame) :
    (analyze_team_tendencies df).late_game_win_rate =
      if (df.rows.filter (fun r => 1800 ≤ r.game_duration)).isEmpty then (0 : ℚ)
      else qmean ((df.rows.filter (fun r => 1800 ≤ r.game_duration)).map
        (fun r => boolVal r.win)) := rfl

theorem att_tendency_field (df : Frame) :
    (analyze_team_tendencies df).win_tendency =
      if (analyze_team_tendencies df).late_game_win_rate
          < (analyze_team_tendencies df).early_game_win_rate
      then "early" else "late" := rfl

/-- C3: the Team Tendency Analyzer partitions rows at 1800 seconds, reports
each partition's win fraction (0.0 when empty, via the 0/0 = 0 convention of
rational division), labels the win tendency early exactly when the early rate
strictly exceeds the late rate (so equal rates yield late), and on the spec's
concrete ten-row example returns rates 0.3 / 0.6 / 0.5 / 0.0 and tendency
early. -/
theorem claim_C3 : ∀ df : Frame,
    ((analyze_team_tendencies df).early_game_win_rate
      = ((df.rows.filter (fun r => r.game_duration < 1800)).countP (fun r => r.win) : ℚ)
        / (df.rows.filter (fun r => r.game_duration < 1800)).length) ∧
    ((analyze_team_tendencies df).late_game_win_rate
      = ((df.rows.filter (fun r => 1800 ≤ r.game_duration)).countP (fun r => r.win) : ℚ)
        / (df.rows.filter (fun r => 1800 ≤ r.game_duration)).length) ∧
    ((analyze_team_tendencies df).win_tendency = "early"
      ↔ (analyze_team_tendencies df).late_game_win_rate
          < (analyze_team_tendencies df).early_game_win_rate) ∧
    ((analyze_team_tendencies df).win_tendency = "early"
      ∨ (analyze_team_tendencies df).win_tendency = "late") ∧
    analyze_team_tendencies exTeamFrame = ⟨0.3, 0.6, 0.5, 0, "early"⟩ := by
  intro df
  refine ⟨?_, ?_, ?_, ?_, by
    norm_num [analyze_team_tendencies, exTeamFrame, exTeamRows, qmean, boolVal,
      TeamTendencies.mk.injEq]⟩
  · rw [att_early_field df]
    exact win_rate_eq _
  · rw [att_late_field df]
    exact win_rate_eq _
  · rw [att_tendency_field df]
    split_ifs with h <;> simp [h]
  · rw [att_tendency_field df]
    split_ifs <;> simp

/-- C7: the dragon rate and the early / late win rates recomputed internally
by `generate_how_to_win_insights` coincide with the corresponding fields
returned by `analyze_team_tendencies` on the identical collection. -/
theorem claim_C7 : ∀ df : Frame,
    htw_dragon_rate df = (analyze_team_tendencies df).first_dragon_rate ∧
    htw_early_win_rate df = (analyze_team_tendencies df).early_game_win_rate ∧
    htw_late_win_rate df = (analyze_team_tendencies df).late_game_win_rate :=
  fun _ => ⟨rfl, rfl, rfl⟩

/-- C10: passing an empty roles filter to the Player Tendency Analyzer is
identical to passing no filter at all (Python truthiness treats an empty list
like None, so every role present in the data is analyzed). -/
theorem claim_C10 : ∀ df : Frame,
    analyze_player_tendencies df (some []) = analyze_player_tendencies df none :=
  fun _ => rfl

theorem mem_tallyFrom {α : Type} [DecidableEq α] {l : List α} {e : VC α} :
    ∀ {i : Nat} {ks : List α}, e ∈ tallyFrom l i ks →
      e.cnt = countOcc l e.key ∧ ∃ j, e.idx = i + j ∧ ks[j]? = some e.key := by
  intro i ks
  induction ks generalizing i with
  | nil => intro h; simp [tallyFrom] at h
  | cons k ks ih =>
    intro h
    rw [tallyFrom] at h
    rcases List.mem_cons.mp h with h | h
    · subst h
      refine ⟨rfl, 0, rfl, ?_⟩
      simp
    · obtain ⟨hc, j, hj, hks⟩ := ih h
      exact ⟨hc, j + 1, by omega, by simpa using hks⟩

theorem mem_of_mem_firstSeen {α : Type} [DecidableEq α] {a : α} :
    ∀ {l : List α}, a ∈ firstSeen l → a ∈ l := by
  intro l
  induction l using firstSeen.induct with
  | case1 => intro h; simp [firstSeen] at h
  | case2 x xs ih =>
    intro h
    rw [firstSeen] at h
    rcases List.mem_cons.mp h with h | h
    · exact h ▸ List.mem_cons_self _ _
    · exact List.mem_cons_of_mem _ (List.mem_of_mem_filter (ih h))

theorem mem_value_counts {α : Type} [DecidableEq α] {l : List α} {e : VC α}
    (h : e ∈ value_counts l) :
    e.cnt = countOcc l e.key ∧ (firstSeen l)[e.idx]? = some e.key := by
  unfold value_counts at h
  have h' : e ∈ tallyFrom l 0 (firstSeen l) :=
    (List.perm_insertionSort vcRel _).mem_iff.mp h
  obtain ⟨hc, j, hj, hks⟩ := mem_tallyFrom h'
  refine ⟨hc, ?_⟩
  rw [hj, Nat.zero_add]
  exact hks

theorem vc_key_mem {α : Type} [DecidableEq α] {l : List α} {e : VC α}
    (h : e ∈ value_counts l) : e.key ∈ l := by
  obtain ⟨-, hget⟩ := mem_value_counts h
  exact mem_of_mem_firstSeen (List.getElem?_mem hget)

/-- C2: every RoleTendency produced by the Player Tendency Analyzer carries
the priority given by the first-match-wins cascade over its game count and
win rate, and the action text given by the win-rate cascade. -/
theorem claim_C2 : ∀ (df : Frame) (roles : Option (List String)) (r : String)
    (t : RoleTendency), (r, t) ∈ analyze_player_tendencies df roles →
    t.priority = (if 3 ≤ t.count ∧ (0.7 ≤ t.win_rate ∨ t.win_rate ≤ 0.3) then "HIGH"
      else if 2 ≤ t.count ∧ (0.6 ≤ t.win_rate ∨ t.win_rate ≤ 0.4) then "MEDIUM"
      else "LOW") ∧
    t.action = (if 0.6 ≤ t.win_rate then "DENY COMFORT PICK"
      else if t.win_rate ≤ 0.4 then "FORCE LOSING MATCHUP"
      else "IGNORE AND PLAY CROSS-MAP") := by
  intro df roles r t h
  unfold analyze_player_tendencies at h
  split at h
  · simp at h
  · simp only [List.mem_filterMap] at h
    obtain ⟨role, hrole, hmap⟩ := h
    rw [Option.map_eq_some'] at hmap
    obtain ⟨t', hbuild, heq⟩ := hmap
    injection heq with h1 h2
    subst h1
    subst h2
    unfold build_role_tendency at hbuild
    split at hbuild
    · exact absurd hbuild (by simp)
    · injection hbuild with hb
      subst hb
      exact ⟨rfl, rfl⟩

/-- C9: every reported role tendency rests on at least 2 games, and a role in
which every champion has fewer than 2 games is entirely absent from the
result mapping. -/
theorem claim_C9 : ∀ (df : Frame) (roles : Option (List String)),
    (∀ r t, (r, t) ∈ analyze_player_tendencies df roles → 2 ≤ t.count) ∧
    (∀ role : String,
      (∀ c ∈ (pt_role_group df roles role).map (fun x => x.champion),
          countOcc ((pt_role_group df roles role).map (fun x => x.champion)) c < 2) →
      ∀ t, (role, t) ∉ analyze_player_tendencies df roles) := by
  intro df roles
  constructor
  · intro r t h
    unfold analyze_player_tendencies at h
    split at h
    · simp at h
    · simp only [List.mem_filterMap] at h
      obtain ⟨role, hrole, hmap⟩ := h
      rw [Option.map_eq_some'] at hmap
      obtain ⟨t', hbuild, heq⟩ := hmap
      injection heq with h1 h2
      subst h1
      subst h2
      unfold build_role_tendency at hbuild
      split at hbuild
      · exact absurd hbuild (by simp)
      · rename_i top tail hfilter
        injection hbuild with hb
        subst hb
        have htop : top ∈ List.filter (fun e => decide (2 ≤ e.cnt))
            (value_counts ((pt_role_group df roles role).map (fun r => r.champion))) :=
          hfilter ▸ List.mem_cons_self top tail
        have := (List.mem_filter.mp htop).2
        simpa using this
  · intro role hall t hmem
    unfold analyze_player_tendencies at hmem
    split at hmem
    · simp at hmem
    · simp only [List.mem_filterMap] at hmem
      obtain ⟨role', hrole', hmap⟩ := hmem
      rw [Option.map_eq_some'] at hmap
      obtain ⟨t', hbuild, heq⟩ := hmap
      injection heq with h1 h2
      subst h1
      unfold build_role_tendency at hbuild
      split at hbuild
      · exact absurd hbuild (by simp)
      · rename_i top tail hfilter
        have htop : top ∈ List.filter (fun e => decide (2 ≤ e.cnt))
            (value_counts ((pt_role_group df roles role').map (fun r => r.champion))) :=
          hfilter ▸ List.mem_cons_self top tail
        obtain ⟨hmemvc, hcnt⟩ := List.mem_filter.mp htop
        have h2le : 2 ≤ top.cnt := by simpa using hcnt
        obtain ⟨hccount, -⟩ := mem_value_counts hmemvc
        have hkey : top.key ∈ (pt_role_group df roles role').map (fun x => x.champion) :=
          vc_key_mem hmemvc
        have := hall top.key hkey
        omega

theorem exPlayer_eval :
    analyze_player_tendencies exPlayerFrame none = [("TOP", exTendA)] := by
  simp [analyze_player_tendencies, pt_data, pt_role_group, exPlayerFrame, exPlayerRows,
    build_role_tendency, value_counts, tallyFrom, firstSeen, List.filterMap,
    List.insertionSort, List.orderedInsert, vcRel, qmean, boolVal, Option.map,
    countOcc, exTendA]
  norm_num

theorem claim_C2_witness :
    ("TOP", exTendA) ∈ analyze_player_tendencies exPlayerFrame none ∧
    exTendA.priority
      = (if 3 ≤ exTendA.count ∧ (0.7 ≤ exTendA.win_rate ∨ exTendA.win_rate ≤ 0.3)
          then "HIGH"
          else if 2 ≤ exTendA.count ∧ (0.6 ≤ exTendA.win_rate ∨ exTendA.win_rate ≤ 0.4)
          then "MEDIUM" else "LOW") ∧
    exTendA.action
      = (if 0.6 ≤ exTendA.win_rate then "DENY COMFORT PICK"
          else if exTendA.win_rate ≤ 0.4 then "FORCE LOSING MATCHUP"
          else "IGNORE AND PLAY CROSS-MAP") := by
  have hmem : ("TOP", exTendA) ∈ analyze_player_tendencies exPlayerFrame none := by
    rw [exPlayer_eval]
    exact List.mem_singleton.mpr rfl
  obtain ⟨h1, h2⟩ := claim_C2 exPlayerFrame none "TOP" exTendA hmem
  exact ⟨hmem, h1, h2⟩

theorem claim_C9_witness :
    2 ≤ exTendA.count ∧
    ("MID", exTendA) ∉ analyze_player_tendencies exPlayerFrame none := by
  have hmem : ("TOP", exTendA) ∈ analyze_player_tendencies exPlayerFrame none := by
    rw [exPlayer_eval]
    exact List.mem_singleton.mpr rfl
  refine ⟨(claim_C9 exPlayerFrame none).1 "TOP" exTendA hmem,
    (claim_C9 exPlayerFrame none).2 "MID" ?_ exTendA⟩
  intro c hc
  simp [pt_role_group, pt_data, exPlayerFrame, exPlayerRows] at hc

/-- C8 as stated is false: on a collection from which only the role field is
absent, the Composition Analyzer does not return an empty composition list —
its column check reads only champion. -/
theorem claim_C8_counterexample :
    exNoRoleFrame.hasRole = false ∧ analyze_compositions exNoRoleFrame ≠ [] := by
  constructor
  · rfl
  · have : (analyze_compositions exNoRoleFrame).length = 2 := by
      simp [analyze_compositions, ranked_compositions, compsOf, group_keys,
        exNoRoleFrame, exPlayerRows, value_counts, tallyFrom, firstSeen,
        List.insertionSort, List.orderedInsert, vcRel, pairLe, countOcc]
    intro hnil
    rw [hnil] at this
    simp at this

/-- C8 amended: a missing role or champion column empties the Player Tendency
Analyzer's mapping; a missing champion column (specifically) empties the
Composition Analyzer's list; and team tendencies / how-to-win insights are
unaffected by either optional column's absence, succeeding from the required
fields alone. -/
theorem claim_C8 : ∀ (df : Frame) (roles : Option (List String)),
    (df.hasRole = false ∨ df.hasChampion = false →
      analyze_player_tendencies df roles = []) ∧
    (df.hasChampion = false → analyze_compositions df = []) ∧
    analyze_team_tendencies df = analyze_team_tendencies ⟨df.rows, true, true⟩ ∧
    generate_how_to_win_insights df
      = generate_how_to_win_insights ⟨df.rows, true, true⟩ := by
  intro df roles
  refine ⟨?_, ?_, rfl, rfl⟩
  · intro h
    unfold analyze_player_tendencies
    rcases h with h | h <;> simp [h]
  · intro h
    unfold analyze_compositions
    simp [h]

theorem claim_C8_witness :
    analyze_player_tendencies exNoOptFrame none = [] ∧
    analyze_compositions exNoOptFrame = [] :=
  ⟨(claim_C8 exNoOptFrame none).1 (Or.inl rfl),
   (claim_C8 exNoOptFrame none).2.1 rfl⟩

/-- C4: the HIGH insight is the force-dragon recommendation exactly when the
first-dragon mean is below 0.40, else the stall-for-late recommendation
exactly when early minus late win rate exceeds 0.15, else the
press-the-advantage recommendation citing the overall win mean; the MEDIUM
insight is the crash-waves recommendation exactly when the first-tower mean
is below 0.50, else the invade-early recommendation exactly when late minus
early win rate exceeds 0.10, else the vision-control insight citing no
numeric quantity. The nonemptiness hypothesis keeps the statement within the
cases where the Python column means are defined. -/
theorem claim_C4 : ∀ df : Frame, df.rows ≠ [] →
    ((generate_how_to_win_insights df)[0]?
        = some ⟨"FORCE DRAGON FIGHTS. DENY SOUL AT ALL COSTS.",
            "Opponent dragon control is weak (\x7b\x7d capture rate).",
            [dragon_mean df], "HIGH"⟩
      ↔ dragon_mean df < 0.4) ∧
    (¬ dragon_mean df < 0.4 →
      ((generate_how_to_win_insights df)[0]?
          = some ⟨"STALL FOR LATE. PUNISH THEIR MID-GAME DESPERATION.",
              "Massive late-game drop detected (\x7b\x7d Early vs \x7b\x7d Late WR).",
              [htw_early_win_rate df, htw_late_win_rate df], "HIGH"⟩
        ↔ htw_early_win_rate df - htw_late_win_rate df > 0.15)) ∧
    (¬ dragon_mean df < 0.4 → ¬ htw_early_win_rate df - htw_late_win_rate df > 0.15 →
      (generate_how_to_win_insights df)[0]?
        = some ⟨"PRESS THE ADVANTAGE. DON\x27T LET THEM BREATHE.",
            "Maintain pressure (\x7b\x7d overall win rate).",
            [overall_win_mean df], "HIGH"⟩) ∧
    ((generate_how_to_win_insights df)[1]?
        = some ⟨"CRASH WAVES. PUNISH WEAK ROTATIONS FOR PLATES.",
            "Subpar first tower control (\x7b\x7d rate).",
            [tower_mean df], "MEDIUM"⟩
      ↔ tower_mean df < 0.5) ∧
    (¬ tower_mean df < 0.5 →
      ((generate_how_to_win_insights df)[1]?
          = some ⟨"INVADE EARLY. BREAK THEIR SCALING BEFORE IT STARTS.",
              "Scaling threat detected (\x7b\x7d Late WR vs \x7b\x7d Early).",
              [htw_late_win_rate df, htw_early_win_rate df], "MEDIUM"⟩
        ↔ htw_late_win_rate df - htw_early_win_rate df > 0.1)) ∧
    (¬ tower_mean df < 0.5 → ¬ htw_late_win_rate df - htw_early_win_rate df > 0.1 →
      (generate_how_to_win_insights df)[1]?
        = some ⟨"CONTROL VISION. PUNISH FACE-CHECKS IN RIVER.",
            "Standard objective pacing detected.", [], "MEDIUM"⟩) := by
  intro df hne
  have hd : htw_dragon_rate df = dragon_mean df := by
    unfold htw_dragon_rate dragon_mean
    exact rate_eq _ _
  have hT : qmean (df.rows.map (fun r => boolVal r.first_tower)) = tower_mean df := by
    unfold tower_mean
    exact rate_eq _ _
  have hW : qmean (df.rows.map (fun r => boolVal r.win)) = overall_win_mean df := by
    unfold overall_win_mean
    exact rate_eq _ _
  have h0 : (generate_how_to_win_insights df)[0]?
      = some (if dragon_mean df < 0.4 then
          ⟨"FORCE DRAGON FIGHTS. DENY SOUL AT ALL COSTS.",
            "Opponent dragon control is weak (\x7b\x7d capture rate).",
            [dragon_mean df], "HIGH"⟩
        else if htw_early_win_rate df > htw_late_win_rate df + 0.15 then
          ⟨"STALL FOR LATE. PUNISH THEIR MID-GAME DESPERATION.",
            "Massive late-game drop detected (\x7b\x7d Early vs \x7b\x7d Late WR).",
            [htw_early_win_rate df, htw_late_win_rate df], "HIGH"⟩
        else
          ⟨"PRESS THE ADVANTAGE. DON\x27T LET THEM BREATHE.",
            "Maintain pressure (\x7b\x7d overall win rate).",
            [overall_win_mean df], "HIGH"⟩) := by
    rw [← hd, ← hW]
    rfl
  have h1 : (generate_how_to_win_insights df)[1]?
      = some (if tower_mean df < 0.5 then
          ⟨"CRASH WAVES. PUNISH WEAK ROTATIONS FOR PLATES.",
            "Subpar first tower control (\x7b\x7d rate).",
            [tower_mean df], "MEDIUM"⟩
        else if htw_late_win_rate df > htw_early_win_rate df + 0.1 then
          ⟨"INVADE EARLY. BREAK THEIR SCALING BEFORE IT STARTS.",
            "Scaling threat detected (\x7b\x7d Late WR vs \x7b\x7d Early).",
            [htw_late_win_rate df, htw_early_win_rate df], "MEDIUM"⟩
        else
          ⟨"CONTROL VISION. PUNISH FACE-CHECKS IN RIVER.",
            "Standard objective pacing detected.", [], "MEDIUM"⟩) := by
    rw [← hT]
    rfl
  refine ⟨?_, ?_, ?_, ?_, ?_, ?_⟩
  · rw [h0]
    by_cases hc : dragon_mean df < 0.4
    · rw [if_pos hc]
      simp [hc]
    · rw [if_neg hc]
      simp only [hc, iff_false, Option.some_inj]
      split_ifs <;> simp [Insight.mk.injEq]
  · intro hc
    rw [h0, if_neg hc]
    by_cases hc2 : htw_early_win_rate df > htw_late_win_rate df + 0.15
    · rw [if_pos hc2]
      constructor
      · intro _
        linarith
      · intro _
        rfl
    · rw [if_neg hc2]
      constructor
      · intro habs
        exact absurd habs (by simp [Insight.mk.injEq])
      · intro hgt
        exact absurd (show htw_early_win_rate df > htw_late_win_rate df + 0.15 by linarith) hc2
  · intro hc hc2
    have hc2' : ¬ htw_early_win_rate df > htw_late_win_rate df + 0.15 := by
      intro h
      exact hc2 (by linarith)
    rw [h0, if_neg hc, if_neg hc2']
  · rw [h1]
    by_cases hc : tower_mean df < 0.5
    · rw [if_pos hc]
      simp [hc]
    · rw [if_neg hc]
      simp only [hc, iff_false, Option.some_inj]
      split_ifs <;> simp [Insight.mk.injEq]
  · intro hc
    rw [h1, if_neg hc]
    by_cases hc2 : htw_late_win_rate df > htw_early_win_rate df + 0.1
    · rw [if_pos hc2]
      constructor
      · intro _
        linarith
      · intro _
        rfl
    · rw [if_neg hc2]
      constructor
      · intro habs
        exact absurd habs (by simp [Insight.mk.injEq])
      · intro hgt
        exact absurd (show htw_late_win_rate df > htw_early_win_rate df + 0.1 by linarith) hc2
  · intro hc hc2
    have hc2' : ¬ htw_late_win_rate df > htw_early_win_rate df + 0.1 := by
      intro h
      exact hc2 (by linarith)
    rw [h1, if_neg hc, if_neg hc2']

theorem claim_C4_witness :
    exTeamFrame.rows ≠ [] ∧
    (generate_how_to_win_insights exTeamFrame)[0]?
      = some ⟨"FORCE DRAGON FIGHTS. DENY SOUL AT ALL COSTS.",
          "Opponent dragon control is weak (\x7b\x7d capture rate).",
          [dragon_mean exTeamFrame], "HIGH"⟩ ∧
    (generate_how_to_win_insights exTeamFrame)[1]?
      = some ⟨"CONTROL VISION. PUNISH FACE-CHECKS IN RIVER.",
          "Standard objective pacing detected.", [], "MEDIUM"⟩ := by
  have hne : exTeamFrame.rows ≠ [] := by simp [exTeamFrame, exTeamRows]
  have h := claim_C4 exTeamFrame hne
  have hdm : dragon_mean exTeamFrame < 0.4 := by
    norm_num [dragon_mean, exTeamFrame, exTeamRows, List.countP_cons]
  have htm : ¬ tower_mean exTeamFrame < 0.5 := by
    norm_num [tower_mean, exTeamFrame, exTeamRows, List.countP_cons]
  have hlr : ¬ htw_late_win_rate exTeamFrame - htw_early_win_rate exTeamFrame > 0.1 := by
    norm_num [htw_late_win_rate, htw_early_win_rate, htw_late_games, htw_early_games,
      exTeamFrame, exTeamRows, qmean, boolVal]
  exact ⟨hne, h.1.mpr hdm, h.2.2.2.2.2 htm hlr⟩

theorem bumpTag_fields (c : TagCounts) (tag : Option String) :
    bumpTag c tag =
      ⟨c.skirmish + (if tag = some "skirmish" then 1 else 0),
       c.protect + (if tag = some "protect" then 1 else 0),
       c.engage + (if tag = some "engage" then 1 else 0),
       c.scaling + (if tag = some "scaling" then 1 else 0)⟩ := by
  rcases tag with _ | t
  · simp [bumpTag]
  · simp only [bumpTag]
    split_ifs with h1 h2 h3 h4 <;> simp_all [TagCounts.mk.injEq]

theorem tagCounts_foldl (comp : List String) : ∀ c : TagCounts,
    comp.foldl (fun c ch => bumpTag c (champion_tags ch)) c =
      ⟨c.skirmish + comp.countP (fun ch => champion_tags ch = some "skirmish"),
       c.protect + comp.countP (fun ch => champion_tags ch = some "protect"),
       c.engage + comp.countP (fun ch => champion_tags ch = some "engage"),
       c.scaling + comp.countP (fun ch => champion_tags ch = some "scaling")⟩ := by
  induction comp with
  | nil => intro c; simp
  | cons ch rest ih =>
    intro c
    rw [List.foldl_cons, ih, bumpTag_fields]
    simp only [TagCounts.mk.injEq, List.countP_cons]
    refine ⟨?_, ?_, ?_, ?_⟩ <;>
      · split_ifs <;> simp_all <;> omega

theorem tagCounts_eq (comp : List String) :
    tagCounts comp =
      ⟨comp.countP (fun ch => champion_tags ch = some "skirmish"),
       comp.countP (fun ch => champion_tags ch = some "protect"),
       comp.countP (fun ch => champion_tags ch = some "engage"),
       comp.countP (fun ch => champion_tags ch = some "scaling")⟩ := by
  unfold tagCounts
  rw [tagCounts_foldl]
  simp

theorem max_key_eq_arch_first_max (c : TagCounts) : max_key c = arch_first_max c := by
  rcases c with ⟨s, p, e, g⟩
  unfold max_key arch_first_max max4
  dsimp only
  split_ifs <;> first | rfl | omega | simp_all | (exfalso; omega)

theorem tcGet_max_key (c : TagCounts) : tcGet c (max_key c) = max4 c := by
  rcases c with ⟨s, p, e, g⟩
  unfold max_key tcGet max4
  dsimp only
  split_ifs <;> simp_all <;> omega

theorem arch_first_max_ne_standard (c : TagCounts) : arch_first_max c ≠ "standard" := by
  unfold arch_first_max
  split_ifs <;> simp

/-- C5: the archetype tally counts tagged champions per archetype (untagged
champions contribute to none); the selected primary style is standard exactly
when the maximal count is below 2, and otherwise is the maximal-count
archetype under the skirmish > protect > engage > scaling tie-break; the
classification's category is STANDARD exactly when the maximal count is
below 2. -/
theorem claim_C5 : ∀ comp : List String,
    tagCounts comp =
      ⟨comp.countP (fun ch => champion_tags ch = some "skirmish"),
       comp.countP (fun ch => champion_tags ch = some "protect"),
       comp.countP (fun ch => champion_tags ch = some "engage"),
       comp.countP (fun ch => champion_tags ch = some "scaling")⟩ ∧
    (primary_style_of comp = "standard" ↔ max4 (tagCounts comp) < 2) ∧
    (2 ≤ max4 (tagCounts comp) →
      primary_style_of comp = arch_first_max (tagCounts comp)) ∧
    ((classify_team_composition comp).category = "STANDARD"
      ↔ max4 (tagCounts comp) < 2) := by
  intro comp
  have hstyle : primary_style_of comp
      = if max4 (tagCounts comp) < 2 then "standard" else max_key (tagCounts comp) := by
    unfold primary_style_of
    dsimp only
    rw [tcGet_max_key]
  refine ⟨tagCounts_eq comp, ?_, ?_, ?_⟩
  · rw [hstyle]
    by_cases h : max4 (tagCounts comp) < 2
    · simp [h]
    · rw [if_neg h]
      simp only [h, iff_false]
      rw [max_key_eq_arch_first_max]
      exact arch_first_max_ne_standard _
  · intro h
    rw [hstyle, if_neg (by omega), max_key_eq_arch_first_max]
  · unfold classify_team_composition
    rw [hstyle]
    by_cases h : max4 (tagCounts comp) < 2
    · rw [if_pos h]
      simp only [h, iff_true]
      rfl
    · rw [if_neg h]
      simp only [h, iff_false]
      rw [max_key_eq_arch_first_max]
      unfold arch_first_max archetype_info
      split_ifs <;> simp_all

theorem claim_C5_witness :
    2 ≤ max4 (tagCounts ["Lee Sin", "Renekton", "Malphite"]) ∧
    primary_style_of ["Lee Sin", "Renekton", "Malphite"]
      = arch_first_max (tagCounts ["Lee Sin", "Renekton", "Malphite"]) := by
  have h2 : 2 ≤ max4 (tagCounts ["Lee Sin", "Renekton", "Malphite"]) := by
    simp [max4, tagCounts, bumpTag, champion_tags, champion_tags_table]
  exact ⟨h2, (claim_C5 ["Lee Sin", "Renekton", "Malphite"]).2.2.1 h2⟩

theorem pairwise_idx_tallyFrom {α : Type} [DecidableEq α] {l : List α} :
    ∀ {ks : List α} {i : Nat},
      (tallyFrom l i ks).Pairwise (fun a b => a.idx ≠ b.idx) := by
  intro ks
  induction ks with
  | nil => intro i; simp [tallyFrom]
  | cons k ks ih =>
    intro i
    rw [tallyFrom]
    refine List.Pairwise.cons ?_ ih
    intro e he
    obtain ⟨-, j, hj, -⟩ := mem_tallyFrom he
    simp only []
    omega

theorem value_counts_pairwise {α : Type} [DecidableEq α] (l : List α) :
    (value_counts l).Pairwise
      (fun a b => b.cnt < a.cnt ∨ (a.cnt = b.cnt ∧ a.idx < b.idx)) := by
  have hs : (value_counts l).Pairwise vcRel := List.sorted_insertionSort vcRel _
  have hne : (value_counts l).Pairwise (fun a b : VC α => a.idx ≠ b.idx) := by
    refine ((List.perm_insertionSort vcRel _).pairwise_iff ?_).mpr pairwise_idx_tallyFrom
    intro a b h
    exact h.symm
  refine (hs.and hne).imp ?_
  intro a b hab
  obtain ⟨hr, hn⟩ := hab
  unfold vcRel at hr
  omega

theorem mem_compsOf_sorted {df : Frame} {c : List String} (h : c ∈ compsOf df) :
    List.Sorted (fun a b : String => a ≤ b) c := by
  unfold compsOf at h
  obtain ⟨k, -, hk⟩ := List.mem_map.mp h
  rw [← hk]
  exact List.sorted_insertionSort _ _

/-- C6: the composition list has length at most 5, is ordered by
non-increasing occurrence count, and each composition in it is sorted
lexicographically; the underlying ranking orders entries by strictly larger
count first and first-encountered position among ties, every ranked entry's
count being its composition's occurrence count and its position pointing at
that composition in first-encountered order. -/
theorem claim_C6 : ∀ df : Frame,
    (analyze_compositions df).length ≤ 5 ∧
    (analyze_compositions df).Pairwise (fun a b => b.count ≤ a.count) ∧
    (∀ e ∈ analyze_compositions df,
      List.Sorted (fun a b : String => a ≤ b) e.composition) ∧
    (ranked_compositions df).Pairwise
      (fun a b => b.cnt < a.cnt ∨ (a.cnt = b.cnt ∧ a.idx < b.idx)) ∧
    (∀ e ∈ ranked_compositions df,
      e.cnt = countOcc (compsOf df) e.key ∧
      (firstSeen (compsOf df))[e.idx]? = some e.key) := by
  intro df
  refine ⟨?_, ?_, ?_, value_counts_pairwise _, fun e he => mem_value_counts he⟩
  · unfold analyze_compositions
    split_ifs
    · simp only [List.length_map, List.length_take]
      omega
    · simp
  · unfold analyze_compositions
    split_ifs
    · have h5 : ((ranked_compositions df).take 5).Pairwise
          (fun a b => b.cnt < a.cnt ∨ (a.cnt = b.cnt ∧ a.idx < b.idx)) :=
        (value_counts_pairwise _).sublist (List.take_sublist 5 _)
      refine h5.map _ ?_
      intro a b hab
      dsimp only
      omega
    · simp
  · intro e he
    unfold analyze_compositions at he
    split_ifs at he
    · obtain ⟨v, hv, hve⟩ := List.mem_map.mp he
      have hkey : v.key ∈ compsOf df := vc_key_mem (List.mem_of_mem_take hv)
      have := mem_compsOf_sorted hkey
      rw [← hve]
      exact this
    · simp at he

theorem exComp_eval : analyze_compositions exCompFrame = [exCompEntry] := by
  have hng : ¬ (("Garen" : String) ≤ "Darius") := by
    simp only [String.le_iff_toList_le]
    decide
  have hlt : (['D', 'a', 'r', 'i', 'u', 's'] : List Char) < ['G', 'a', 'r', 'e', 'n'] := by
    decide
  simp [analyze_compositions, ranked_compositions, compsOf, group_keys, exCompFrame,
    exCompRows, value_counts, tallyFrom, firstSeen, List.insertionSort,
    List.orderedInsert, vcRel, pairLe, countOcc, hng, classify_team_composition,
    primary_style_of, tagCounts, bumpTag, champion_tags, champion_tags_table,
    max_key, tcGet, archetype_info, exCompEntry, hlt, List.foldl, List.find?,
    Option.map]

theorem claim_C6_witness :
    (analyze_compositions exCompFrame).length ≤ 5 ∧
    exCompEntry ∈ analyze_compositions exCompFrame ∧
    List.Sorted (fun a b : String => a ≤ b) exCompEntry.composition := by
  have h := claim_C6 exCompFrame
  have hmem : exCompEntry ∈ analyze_compositions exCompFrame := by
    rw [exComp_eval]
    exact List.mem_singleton.mpr rfl
  exact ⟨h.1, hmem, h.2.2.1 exCompEntry hmem⟩

end RiftScout
